import Mathlib

/-!
# Verification of the admin authentication core of Rate-my-services

Shallow embedding of the authentication subsystem:

* `src/backend/routes/auth.js` (concatenated document: login route,
  auth-database module with lockout ledger, credential verification,
  sessions-table migration),
* `src/backend/middleware/auth.js` (`requireAuth` session validation).

Session timestamps are JS `Date.now()` values, modelled as `Int`
milliseconds.  The login-attempt ledger has two models:

* the physical one (`AttemptRow`, `getRecentFailedAttemptsText`,
  `isAccountLockedText`): `attempted_at` is the TEXT value written by
  SQLite's `DEFAULT CURRENT_TIMESTAMP`, of the form
  `"YYYY-MM-DD HH:MM:SS"` (UTC, space separator, second precision),
  while the bound passed to the SQL `attempted_at > ?` is a JS
  `toISOString()` value `"YYYY-MM-DDTHH:MM:SS.sssZ"`.  SQLite compares
  the two TEXT values with its binary collation, modelled by the
  code-point-wise comparison `textLt`, which coincides with byte order
  on these ASCII strings.  Because a space (0x20) sorts below the letter
  `'T'` (0x54), a stored row compares below the bound whenever the two
  share their ten-character UTC date prefix — the defect established
  for C2 and C4;
* an idealized chronological one (`LoginAttempt` with `Int`
  millisecond timestamps, `inWindowFailure`, `isAccountLocked`,
  `loginRoute`) expressing the trailing 15-minute window the code
  intends.  It is used only where the window predicate is not
  load-bearing: C5 concerns the cleared (empty) failure set, and C6
  concerns the per-branch ledger effects, its counterexample sitting
  at epoch-era timestamps where both readings agree.

`bcrypt.compare` is an external library call; it is modelled as an
abstract parameter `compare : String → String → Bool`.  Likewise
`new Date(text).getTime()` is modelled as an abstract
`parseTs : String → Int` (Node parses the space-separated text as
local time, a second infidelity the abstraction leaves open).
-/

namespace RateMyServices

/-! ## Security constants (auth-database module) -/

def MAX_FAILED_ATTEMPTS : Nat := 5

def LOCKOUT_DURATION_MS : Int := 15 * 60 * 1000

/-- Pre-computed dummy bcrypt hash used when the user does not exist. -/
def DUMMY_HASH : String :=
  "$2b$12$LQv3c1yqBWVHxkd0LHAkCOYz6TtxMQJqhN8/X4.VTtYA.qkAJcmai"

/-! ## Login attempt ledger (`login_attempts` table) -/

/-- One row of the `login_attempts` table. -/
structure LoginAttempt where
  username : String
  ipAddress : String
  success : Bool
  attemptedAt : Int
deriving Repr, DecidableEq

/-- `recordLoginAttempt`: INSERT one row into `login_attempts`. -/
def recordLoginAttempt (ledger : List LoginAttempt) (username ipAddress : String)
    (success : Bool) (now : Int) : List LoginAttempt :=
  ledger ++ [⟨username, ipAddress, success, now⟩]

/-- Idealized chronological reading of the SQL predicate
`username = ? AND success = 0 AND attempted_at > windowStart` with
`windowStart = now - LOCKOUT_DURATION_MS`.  This is the window the
code intends; the physical TEXT comparison the code performs is
`getRecentFailedAttemptsText` (see the file header and C2/C4). -/
def inWindowFailure (username : String) (now : Int) (r : LoginAttempt) : Bool :=
  r.username == username && r.success == false &&
    decide (now - LOCKOUT_DURATION_MS < r.attemptedAt)

/-- `getRecentFailedAttempts` under the idealized chronological window
(see `inWindowFailure`): COUNT of failed attempts for `username`
inside the trailing lockout window. -/
def getRecentFailedAttempts (ledger : List LoginAttempt) (username : String)
    (now : Int) : Nat :=
  (ledger.filter (inWindowFailure username now)).length

/-- Result shape of `isAccountLocked`. -/
structure LockStatus where
  locked : Bool
  remainingAttempts : Nat
  lockoutEndsAt : Option Int
deriving Repr, DecidableEq

/-- The value returned by `SELECT attempted_at ... ORDER BY attempted_at ASC
LIMIT 1`: the least element of the list, `none` on an empty list. -/
def oldestTime (l : List Int) : Option Int :=
  match l with
  | [] => none
  | h :: t => some (t.foldl min h)

/-- `isAccountLocked` under the idealized chronological window: locked
iff the recent-failure count reaches `MAX_FAILED_ATTEMPTS`; when
locked, `lockoutEndsAt` is the oldest in-window failed attempt plus
the lockout duration.  The physical TEXT-comparison behaviour is
`isAccountLockedText`. -/
def isAccountLocked (ledger : List LoginAttempt) (username : String)
    (now : Int) : LockStatus :=
  let failedAttempts := getRecentFailedAttempts ledger username now
  if failedAttempts ≥ MAX_FAILED_ATTEMPTS then
    let windowFails := ledger.filter (inWindowFailure username now)
    match oldestTime (windowFails.map (·.attemptedAt)) with
    | some t => ⟨true, 0, some (t + LOCKOUT_DURATION_MS)⟩
    | none => ⟨true, 0, none⟩
  else
    ⟨false, MAX_FAILED_ATTEMPTS - failedAttempts, none⟩

/-- `clearFailedAttempts`: DELETE the failure rows of `username`
(no time filter in the SQL). -/
def clearFailedAttempts (ledger : List LoginAttempt) (username : String) :
    List LoginAttempt :=
  ledger.filter (fun r => !(r.username == username && r.success == false))

/-! ## Physical TEXT-timestamp model of the lockout queries

`login_attempts.attempted_at` is populated only by the column default
`CURRENT_TIMESTAMP`, so the stored value is SQLite's text
`"YYYY-MM-DD HH:MM:SS"`.  The window bound the code binds into
`attempted_at > ?` is `new Date(Date.now() - LOCKOUT_DURATION_MS)
.toISOString()`, i.e. `"YYYY-MM-DDTHH:MM:SS.sssZ"`.  The comparison is
SQLite's binary TEXT collation, modelled by the code-point-wise
`textLt` below (byte order and code-point order coincide on these
ASCII strings). -/

/-- One row of `login_attempts` as physically stored: `attemptedAt` is
the TEXT value written by `DEFAULT CURRENT_TIMESTAMP`. -/
structure AttemptRow where
  username : String
  ipAddress : String
  success : Bool
  attemptedAt : String
deriving Repr, DecidableEq

/-- Bytewise comparison of character lists by code point — SQLite's
binary collation, which on the ASCII timestamp strings at hand is
exactly memcmp order. -/
def charListLt : List Char → List Char → Bool
  | [], [] => false
  | [], _ :: _ => true
  | _ :: _, [] => false
  | a :: as, b :: bs =>
    if a.toNat < b.toNat then true
    else if b.toNat < a.toNat then false
    else charListLt as bs

/-- The TEXT comparison SQLite applies to `attempted_at > ?`. -/
def textLt (a b : String) : Bool :=
  charListLt a.data b.data

/-- Faithful `getRecentFailedAttempts`: COUNT of rows matching
`username = ? AND success = 0 AND attempted_at > ?` where the second
parameter is the `toISOString()` window start and `>` is the TEXT
comparison. -/
def getRecentFailedAttemptsText (ledger : List AttemptRow)
    (username windowStart : String) : Nat :=
  (ledger.filter (fun r => r.username == username && r.success == false &&
    textLt windowStart r.attemptedAt)).length

/-- `ORDER BY attempted_at ASC LIMIT 1` over the stored TEXT values:
the least element in the TEXT order. -/
def oldestAttemptText (l : List String) : Option String :=
  match l with
  | [] => none
  | h :: t => some (t.foldl (fun a b => if textLt b a then b else a) h)

/-- Faithful `isAccountLocked` over stored TEXT timestamps.  `parseTs`
models `new Date(attempted_at).getTime()` (Node parses the
space-separated text as local time; the abstraction leaves the
timezone open). -/
def isAccountLockedText (parseTs : String → Int)
    (ledger : List AttemptRow) (username windowStart : String) :
    LockStatus :=
  let failedAttempts := getRecentFailedAttemptsText ledger username windowStart
  if failedAttempts ≥ MAX_FAILED_ATTEMPTS then
    let windowFails := ledger.filter (fun r => r.username == username &&
      r.success == false && textLt windowStart r.attemptedAt)
    match oldestAttemptText (windowFails.map (·.attemptedAt)) with
    | some t => ⟨true, 0, some (parseTs t + LOCKOUT_DURATION_MS)⟩
    | none => ⟨true, 0, none⟩
  else
    ⟨false, MAX_FAILED_ATTEMPTS - failedAttempts, none⟩

/-! ## Credential store and constant-time verifier -/

/-- One row of the `admin_users` table. -/
structure AdminUser where
  id : Int
  username : String
  password_hash : String
  display_name : String
deriving Repr, DecidableEq

/-- `findAdminByUsername`: `SELECT * FROM admin_users WHERE username = ?`
(exact, case-sensitive match; the column is UNIQUE). -/
def findAdminByUsername (users : List AdminUser) (username : String) :
    Option AdminUser :=
  users.find? (fun a => a.username == username)

/-- `verifyCredentialsConstantTime`. `compare` models `bcrypt.compare`.
The JS `user?.password_hash || DUMMY_HASH` falls back to the dummy hash
when the user is missing or its stored hash is the empty string (falsy).
Returns `(valid, user)`. -/
def verifyCredentialsConstantTime (compare : String → String → Bool)
    (users : List AdminUser) (username password : String) :
    Bool × Option AdminUser :=
  let user := findAdminByUsername users username
  let hashToCompare :=
    match user with
    | some u => if u.password_hash = "" then DUMMY_HASH else u.password_hash
    | none => DUMMY_HASH
  let isValid := compare password hashToCompare
  match user, isValid with
  | some u, true => (true, some u)
  | _, _ => (false, none)

/-! ## Login route (`POST /api/admin/login`)

The route: reject missing input (400); pre-check lockout (429, nothing
recorded); verify credentials; on failure record a failed attempt and
re-check lockout (429 or 401); on success clear failed attempts and
record a success row (200).  Session issuance happens after the ledger
writes and does not touch the ledger, so it is omitted from the ledger
model (a session failure turns the 200 into a 500 with the same
ledger). -/

/-- JS truthiness of an optional request-body string (`!username` is
true for a missing field and for the empty string). -/
def truthyStr (o : Option String) : Bool :=
  match o with
  | none => false
  | some s => s != ""

structure LoginResponse where
  status : Nat
  success : Bool
deriving Repr, DecidableEq

/-- The login handler's effect on (response, login-attempt ledger). -/
def loginRoute (compare : String → String → Bool) (users : List AdminUser)
    (ledger : List LoginAttempt) (username password : Option String)
    (ip : String) (now : Int) : LoginResponse × List LoginAttempt :=
  if truthyStr username = false ∨ truthyStr password = false then
    (⟨400, false⟩, ledger)
  else
    let u := username.getD ""
    let p := password.getD ""
    if (isAccountLocked ledger u now).locked then
      (⟨429, false⟩, ledger)
    else
      let vres := verifyCredentialsConstantTime compare users u p
      if vres.1 then
        let ledger2 := recordLoginAttempt (clearFailedAttempts ledger u) u ip true now
        (⟨200, true⟩, ledger2)
      else
        let ledger1 := recordLoginAttempt ledger u ip false now
        if (isAccountLocked ledger1 u now).locked then
          (⟨429, false⟩, ledger1)
        else
          (⟨401, false⟩, ledger1)

/-! ## Session validation middleware (`requireAuth`) -/

def SESSION_IDLE_TIMEOUT_MS : Int := 30 * 60 * 1000

def SESSION_MAX_AGE_MS : Int := 24 * 60 * 60 * 1000

/-- The express session object's auth-relevant fields; `none` models an
absent property. -/
structure SessionData where
  userId : Option Int
  username : Option String
  createdAt : Option Int
  lastActivity : Option Int
deriving Repr, DecidableEq

/-- JS truthiness of an optional numeric session field
(absent, `0` and `NaN` are falsy; `NaN` does not arise here). -/
def truthyNum (o : Option Int) : Bool :=
  match o with
  | none => false
  | some n => n != 0

/-- Outcome of `requireAuth` (the distinct 401 reasons are separate
constructors; the HTTP boundary collapses all four to a generic 401). -/
inductive AuthOutcome where
  | unauthenticated
  | sessionInvalid
  | sessionExpired
  | sessionIdle
  | allowed
deriving Repr, DecidableEq

/-- `requireAuth`: returns the outcome and the session afterwards
(`none` = destroyed; on `allowed` the session continues with
`lastActivity` refreshed). -/
def requireAuth (sess : Option SessionData) (now : Int) :
    AuthOutcome × Option SessionData :=
  match sess with
  | none => (.unauthenticated, none)
  | some s =>
    if truthyNum s.userId = false then
      (.unauthenticated, some s)
    else if (truthyNum s.createdAt && truthyNum s.lastActivity) = false then
      (.sessionInvalid, none)
    else
      let ca := s.createdAt.getD 0
      let la := s.lastActivity.getD 0
      if SESSION_MAX_AGE_MS < now - ca then
        (.sessionExpired, none)
      else if SESSION_IDLE_TIMEOUT_MS < now - la then
        (.sessionIdle, none)
      else
        (.allowed, some { s with lastActivity := some now })

/-! ## Sessions-table startup migration

The startup block of the auth-database module: if the `sessions` table
exists with an `expired` column and no `expire` column, recreate it
inside one transaction (new table, row copy, drop old index and table,
rename, new index); then unconditionally
`CREATE INDEX IF NOT EXISTS idx_sessions_expire ON sessions(expire)`.
A thrown SQL error aborts the transaction (SQLite rollback) and
propagates, preventing startup. -/

/-- A row as an association list column-name ↦ stored value. -/
def SessRow := List (String × String)
deriving instance Repr, DecidableEq for SessRow

/-- Reading a column from a row (SQLite dynamic typing: a column absent
from the row reads as NULL, modelled `""`). -/
def rowGet (r : SessRow) (c : String) : String :=
  match r.find? (fun p => p.1 == c) with
  | some p => p.2
  | none => ""

structure SqlTable where
  cols : List String
  rows : List SessRow
deriving Repr, DecidableEq

/-- The slice of the SQLite database the migration touches. -/
structure DbState where
  sessions : Option SqlTable
  sessionsNew : Option SqlTable
  indexes : List String
deriving Repr, DecidableEq

/-- `CREATE TABLE sessions_new (sid, sess, expire)` — errors if the
table already exists. -/
def stepCreateSessionsNew (st : DbState) : Except String DbState :=
  match st.sessionsNew with
  | some _ => .error "table sessions_new already exists"
  | none => .ok { st with sessionsNew := some ⟨["sid", "sess", "expire"], []⟩ }

/-- `INSERT INTO sessions_new (sid, sess, expire) SELECT sid, sess,
expired FROM sessions` — errors if a selected column is missing. -/
def stepCopyRows (st : DbState) : Except String DbState :=
  match st.sessions, st.sessionsNew with
  | some t, some tn =>
    if "sid" ∈ t.cols ∧ "sess" ∈ t.cols ∧ "expired" ∈ t.cols then
      let copied : List SessRow := t.rows.map (fun r =>
        [("sid", rowGet r "sid"), ("sess", rowGet r "sess"),
         ("expire", rowGet r "expired")])
      .ok { st with sessionsNew := some { tn with rows := tn.rows ++ copied } }
    else
      .error "no such column"
  | _, _ => .error "no such table"

/-- `DROP INDEX IF EXISTS idx_sessions_expired` — never errors. -/
def stepDropIndexExpired (st : DbState) : Except String DbState :=
  .ok { st with indexes := st.indexes.filter (fun i => i != "idx_sessions_expired") }

/-- `DROP TABLE sessions`. -/
def stepDropSessions (st : DbState) : Except String DbState :=
  match st.sessions with
  | some _ => .ok { st with sessions := none }
  | none => .error "no such table: sessions"

/-- `ALTER TABLE sessions_new RENAME TO sessions`. -/
def stepRename (st : DbState) : Except String DbState :=
  match st.sessionsNew with
  | some t =>
    match st.sessions with
    | some _ => .error "there is already another table named sessions"
    | none => .ok { st with sessions := some t, sessionsNew := none }
  | none => .error "no such table: sessions_new"

/-- `CREATE INDEX idx_sessions_expire ON sessions(expire)`. -/
def stepCreateIndexExpire (st : DbState) : Except String DbState :=
  if "idx_sessions_expire" ∈ st.indexes then
    .error "index idx_sessions_expire already exists"
  else
    match st.sessions with
    | some t =>
      if "expire" ∈ t.cols then
        .ok { st with indexes := "idx_sessions_expire" :: st.indexes }
      else
        .error "no such column: expire"
    | none => .error "no such table: sessions"

/-- The statements between `BEGIN TRANSACTION` and `COMMIT`. -/
def migrateBody (st : DbState) : Except String DbState := do
  let st ← stepCreateSessionsNew st
  let st ← stepCopyRows st
  let st ← stepDropIndexExpired st
  let st ← stepDropSessions st
  let st ← stepRename st
  stepCreateIndexExpire st

/-- `CREATE INDEX IF NOT EXISTS idx_sessions_expire ON sessions(expire)`
(the statement after the migration block). -/
def ensureIndexExpire (st : DbState) : DbState × Option String :=
  if "idx_sessions_expire" ∈ st.indexes then
    (st, none)
  else
    match st.sessions with
    | some t =>
      if "expire" ∈ t.cols then
        ({ st with indexes := "idx_sessions_expire" :: st.indexes }, none)
      else
        (st, some "no such column: expire")
    | none => (st, some "no such table: sessions")

/-- The whole sessions-table startup block.  Result: the on-disk state
and `some error` when startup is aborted (a failed transaction is
rolled back, leaving the original state on disk). -/
def sessionsSetup (st : DbState) : DbState × Option String :=
  match st.sessions with
  | some t =>
    let hasExpired := "expired" ∈ t.cols
    let hasExpire := "expire" ∈ t.cols
    if hasExpired ∧ ¬hasExpire then
      match migrateBody st with
      | .ok st2 => ensureIndexExpire st2
      | .error e => (st, some e)
    else
      ensureIndexExpire st
  | none =>
    ensureIndexExpire { st with sessions := some ⟨["sid", "sess", "expire"], []⟩ }

/-! ## Helper lemmas -/

theorem foldl_min_le_init (t : List Int) (a : Int) : t.foldl min a ≤ a := by
  induction t generalizing a with
  | nil => simp
  | cons h t ih => exact le_trans (ih (min a h)) (min_le_left a h)

theorem foldl_min_le_mem (t : List Int) (a : Int) :
    ∀ x ∈ t, t.foldl min a ≤ x := by
  induction t generalizing a with
  | nil => simp
  | cons h t ih =>
    intro x hx
    rcases List.mem_cons.mp hx with rfl | hx
    · exact le_trans (foldl_min_le_init t (min a x)) (min_le_right a x)
    · exact ih (min a h) x hx

theorem foldl_min_mem (t : List Int) (a : Int) :
    t.foldl min a = a ∨ t.foldl min a ∈ t := by
  induction t generalizing a with
  | nil => left; rfl
  | cons h t ih =>
    rw [List.foldl_cons]
    rcases ih (min a h) with h1 | h1
    · rcases min_choice a h with h2 | h2
      · left; rw [h1, h2]
      · right; rw [h1, h2]; exact List.mem_cons_self h t
    · right; exact List.mem_cons_of_mem h h1

theorem oldestTime_mem {l : List Int} {m : Int} (h : oldestTime l = some m) :
    m ∈ l := by
  match l with
  | [] => simp [oldestTime] at h
  | a :: t =>
    simp only [oldestTime, Option.some.injEq] at h
    rcases foldl_min_mem t a with h1 | h1
    · rw [← h, h1]; exact List.mem_cons_self a t
    · rw [← h]; exact List.mem_cons_of_mem a h1

theorem oldestTime_le {l : List Int} {m : Int} (h : oldestTime l = some m) :
    ∀ x ∈ l, m ≤ x := by
  match l with
  | [] => simp [oldestTime] at h
  | a :: t =>
    simp only [oldestTime, Option.some.injEq] at h
    intro x hx
    rcases List.mem_cons.mp hx with rfl | hx
    · rw [← h]; exact foldl_min_le_init t x
    · rw [← h]; exact foldl_min_le_mem t a x hx

theorem oldestTime_isSome {l : List Int} (h : l ≠ []) :
    ∃ m, oldestTime l = some m := by
  match l with
  | [] => exact absurd rfl h
  | a :: t => exact ⟨t.foldl min a, rfl⟩

theorem mem_of_findAdminByUsername {users : List AdminUser} {u : String}
    {a : AdminUser} (h : findAdminByUsername users u = some a) : a ∈ users :=
  List.mem_of_find?_eq_some h

/-- Core of the TEXT-comparison defect: past a common prefix, a string
continuing with `'T'` is never below one continuing with `' '`, since
`' '` (0x20) sorts below `'T'` (0x54). -/
theorem charListLt_T_cons_space_cons (date r1 r2 : List Char) :
    charListLt (date ++ 'T' :: r1) (date ++ ' ' :: r2) = false := by
  induction date with
  | nil => rfl
  | cons c cs ih =>
    show charListLt (c :: (cs ++ 'T' :: r1)) (c :: (cs ++ ' ' :: r2)) = false
    unfold charListLt
    rw [if_neg (Nat.lt_irrefl _), if_neg (Nat.lt_irrefl _)]
    exact ih

/-- A stored `"YYYY-MM-DD HH:MM:SS"` row whose ten-character date
prefix equals that of the `"YYYY-MM-DDT...Z"` window bound never
satisfies the SQL `attempted_at > windowStart`. -/
theorem textLt_sameDate_false {ws row : String} (date r1 r2 : List Char)
    (hws : ws.data = date ++ 'T' :: r1)
    (hrow : row.data = date ++ ' ' :: r2) :
    textLt ws row = false := by
  unfold textLt
  rw [hws, hrow]
  exact charListLt_T_cons_space_cons date r1 r2

theorem verify_find_some (compare : String → String → Bool)
    {users : List AdminUser} {u : String} (p : String) {b : AdminUser}
    (hfind : findAdminByUsername users u = some b)
    (hb : b.password_hash ≠ "") :
    verifyCredentialsConstantTime compare users u p =
      (if compare p b.password_hash = true then (true, some b)
       else (false, none)) := by
  simp only [verifyCredentialsConstantTime, hfind]
  rw [if_neg hb]
  cases compare p b.password_hash <;> simp

theorem verify_find_none (compare : String → String → Bool)
    {users : List AdminUser} {u : String} (p : String)
    (hfind : findAdminByUsername users u = none) :
    verifyCredentialsConstantTime compare users u p = (false, none) := by
  simp only [verifyCredentialsConstantTime, hfind]

theorem no_failure_rows_after_success (ledger : List LoginAttempt)
    (u ip : String) (now : Int) :
    ∀ r ∈ recordLoginAttempt (clearFailedAttempts ledger u) u ip true now,
      (r.username == u && r.success == false) = false := by
  intro r hr
  rcases List.mem_append.mp hr with hr | hr
  · have h2 := (List.mem_filter.mp hr).2
    simp only [Bool.not_eq_true'] at h2
    exact h2
  · have : r = ⟨u, ip, true, now⟩ := by simpa using hr
    subst this
    simp

theorem recent_failures_after_success (ledger : List LoginAttempt)
    (u ip : String) (now now2 : Int) :
    getRecentFailedAttempts
      (recordLoginAttempt (clearFailedAttempts ledger u) u ip true now)
      u now2 = 0 := by
  unfold getRecentFailedAttempts
  rw [List.filter_eq_nil_iff.mpr]
  · rfl
  · intro r hr
    have h1 := no_failure_rows_after_success ledger u ip now r hr
    simp only [inWindowFailure]
    intro habs
    rw [Bool.and_assoc] at habs
    have := (Bool.and_eq_true _ _).mp habs
    rw [(Bool.and_eq_true _ _).mp this.2 |>.1] at h1
    rw [this.1] at h1
    simp at h1

/-! ## Claim theorems -/

/-- C1: `verifyCredentialsConstantTime` returns `valid = true` (with the
account) only when an account with that exact username exists and the
password matches its stored digest; an unknown username and an existing
username with a wrong password both return exactly `(false, none)`, and
whenever `valid = false` the account is `none`.  The hypothesis is the
credential-store invariant that stored digests are never the empty
string (they are bcrypt hashes produced by `createAdminUser`). -/
theorem C1_verify_credentials (compare : String → String → Bool)
    (users : List AdminUser) (u p : String)
    (hinv : ∀ a ∈ users, a.password_hash ≠ "") :
    (∀ a, verifyCredentialsConstantTime compare users u p = (true, some a) →
      findAdminByUsername users u = some a ∧ compare p a.password_hash = true)
    ∧ ((verifyCredentialsConstantTime compare users u p).1 = false →
      (verifyCredentialsConstantTime compare users u p).2 = none)
    ∧ (findAdminByUsername users u = none →
      verifyCredentialsConstantTime compare users u p = (false, none))
    ∧ (∀ a, findAdminByUsername users u = some a →
      compare p a.password_hash = false →
      verifyCredentialsConstantTime compare users u p = (false, none)) := by
  refine ⟨?_, ?_, ?_, ?_⟩
  · intro a ha
    cases hfind : findAdminByUsername users u with
    | none =>
      rw [verify_find_none compare p hfind] at ha
      exact absurd ha (by simp)
    | some b =>
      have hb := hinv b (mem_of_findAdminByUsername hfind)
      rw [verify_find_some compare p hfind hb] at ha
      by_cases hc : compare p b.password_hash = true
      · rw [if_pos hc] at ha
        have hba : b = a := by simpa using ha
        subst hba
        exact ⟨rfl, hc⟩
      · rw [if_neg hc] at ha
        exact absurd ha (by simp)
  · intro h1
    cases hfind : findAdminByUsername users u with
    | none => rw [verify_find_none compare p hfind]
    | some b =>
      have hb := hinv b (mem_of_findAdminByUsername hfind)
      rw [verify_find_some compare p hfind hb] at h1 ⊢
      by_cases hc : compare p b.password_hash = true
      · rw [if_pos hc] at h1; simp at h1
      · rw [if_neg hc]
  · intro hfind
    exact verify_find_none compare p hfind
  · intro a hfind hc
    have hb := hinv a (mem_of_findAdminByUsername hfind)
    rw [verify_find_some compare p hfind hb, if_neg (by simp [hc])]

/-- C1 witness: instantiation at a concrete store, an unknown username,
and a wrong password. -/
theorem C1_verify_credentials_witness :
    verifyCredentialsConstantTime (fun p h => p == "pw" && h == "hash1")
      [⟨1, "admin", "hash1", "Admin"⟩] "ghost" "pw" = (false, none) :=
  (C1_verify_credentials (fun p h => p == "pw" && h == "hash1")
    [⟨1, "admin", "hash1", "Admin"⟩] "ghost" "pw" (by decide)).2.2.1 (by decide)

/-- C2 (code bug): the program's lockout query never counts a failure
whose stored `CURRENT_TIMESTAMP` text shares its UTC date with the
`toISOString()` window bound, because the TEXT comparison puts
`"YYYY-MM-DD ..."` below `"YYYY-MM-DDT..."`.  Hence for ANY number of
failure rows dated like the bound — in particular five failures
recorded seconds before the check — the failure count is 0 and
`isAccountLocked` reports `locked = false` with the full
`MAX_FAILED_ATTEMPTS` remaining, contradicting the claim that five
in-window failures lock the account. -/
theorem C2_lockout_window_bug (ledger : List AttemptRow) (u ws : String)
    (date : List Char)
    (hws : ∃ r1, ws.data = date ++ 'T' :: r1)
    (hrows : ∀ r ∈ ledger, ∃ r2, r.attemptedAt.data = date ++ ' ' :: r2) :
    getRecentFailedAttemptsText ledger u ws = 0 ∧
    ∀ parseTs : String → Int,
      isAccountLockedText parseTs ledger u ws =
        ⟨false, MAX_FAILED_ATTEMPTS, none⟩ := by
  have hcount : getRecentFailedAttemptsText ledger u ws = 0 := by
    unfold getRecentFailedAttemptsText
    rw [List.filter_eq_nil_iff.mpr]
    · rfl
    · intro r hr
      obtain ⟨r1, hws1⟩ := hws
      obtain ⟨r2, hrow⟩ := hrows r hr
      intro habs
      have hlt : textLt ws r.attemptedAt = true :=
        ((Bool.and_eq_true _ _).mp habs).2
      rw [textLt_sameDate_false date r1 r2 hws1 hrow] at hlt
      exact Bool.false_ne_true hlt
  refine ⟨hcount, fun parseTs => ?_⟩
  simp only [isAccountLockedText, hcount]
  rw [if_neg (by decide)]
  rfl

/-- C2 witness — the failing input: five failed attempts for "admin"
stored at `2025-06-15 12:00:00 .. 12:00:04` UTC, checked at
`2025-06-15T12:00:05Z`, window start `2025-06-15T11:45:05.000Z`: all
five lie chronologically inside the window, yet the count is 0 and the
account stays unlocked with 5 remaining attempts. -/
theorem C2_lockout_window_bug_witness :
    getRecentFailedAttemptsText
      [⟨"admin", "ip", false, "2025-06-15 12:00:00"⟩,
       ⟨"admin", "ip", false, "2025-06-15 12:00:01"⟩,
       ⟨"admin", "ip", false, "2025-06-15 12:00:02"⟩,
       ⟨"admin", "ip", false, "2025-06-15 12:00:03"⟩,
       ⟨"admin", "ip", false, "2025-06-15 12:00:04"⟩]
      "admin" "2025-06-15T11:45:05.000Z" = 0 ∧
    ∀ parseTs : String → Int,
      isAccountLockedText parseTs
        [⟨"admin", "ip", false, "2025-06-15 12:00:00"⟩,
         ⟨"admin", "ip", false, "2025-06-15 12:00:01"⟩,
         ⟨"admin", "ip", false, "2025-06-15 12:00:02"⟩,
         ⟨"admin", "ip", false, "2025-06-15 12:00:03"⟩,
         ⟨"admin", "ip", false, "2025-06-15 12:00:04"⟩]
        "admin" "2025-06-15T11:45:05.000Z" =
        ⟨false, MAX_FAILED_ATTEMPTS, none⟩ :=
  C2_lockout_window_bug
    [⟨"admin", "ip", false, "2025-06-15 12:00:00"⟩,
     ⟨"admin", "ip", false, "2025-06-15 12:00:01"⟩,
     ⟨"admin", "ip", false, "2025-06-15 12:00:02"⟩,
     ⟨"admin", "ip", false, "2025-06-15 12:00:03"⟩,
     ⟨"admin", "ip", false, "2025-06-15 12:00:04"⟩]
    "admin" "2025-06-15T11:45:05.000Z" ("2025-06-15".data)
    ⟨"11:45:05.000Z".data, by decide⟩
    (by
      intro r hr
      simp only [List.mem_cons, List.not_mem_nil, or_false] at hr
      rcases hr with rfl | rfl | rfl | rfl | rfl
      · exact ⟨"12:00:00".data, by decide⟩
      · exact ⟨"12:00:01".data, by decide⟩
      · exact ⟨"12:00:02".data, by decide⟩
      · exact ⟨"12:00:03".data, by decide⟩
      · exact ⟨"12:00:04".data, by decide⟩)

/-- C3: a session carrying (truthy) `createdAt` and `lastActivity` whose
absolute age exceeds `SESSION_MAX_AGE_MS` is rejected as expired and
destroyed, for every value of `lastActivity` — the absolute-age check
does not consult `lastActivity`. -/
theorem C3_absolute_age (s : SessionData) (now : Int)
    (hu : truthyNum s.userId = true)
    (hc : truthyNum s.createdAt = true)
    (hl : truthyNum s.lastActivity = true)
    (hage : SESSION_MAX_AGE_MS < now - s.createdAt.getD 0) :
    requireAuth (some s) now = (.sessionExpired, none) := by
  simp only [requireAuth]
  rw [if_neg (by simp [hu]), if_neg (by simp [hc, hl]), if_pos hage]

/-- C3 witness: a 24-hour-old session whose `lastActivity` was refreshed
one millisecond before the check is still rejected as expired. -/
theorem C3_absolute_age_witness :
    requireAuth (some ⟨some 1, some "admin", some 100, some 86400200⟩)
      86400201 = (.sessionExpired, none) :=
  C3_absolute_age ⟨some 1, some "admin", some 100, some 86400200⟩ 86400201
    (by decide) (by decide) (by decide) (by decide)

/-- C9: a session with an authenticated user id but lacking (truthy)
`createdAt` or `lastActivity` is destroyed and rejected as invalid —
never repaired. -/
theorem C9_missing_metadata (s : SessionData) (now : Int)
    (hu : truthyNum s.userId = true)
    (hmeta : truthyNum s.createdAt = false ∨ truthyNum s.lastActivity = false) :
    requireAuth (some s) now = (.sessionInvalid, none) := by
  simp only [requireAuth]
  rw [if_neg (by simp [hu]),
    if_pos (by rcases hmeta with h | h <;> simp [h])]

/-- C9 witness: a session with `userId` set but no `createdAt`. -/
theorem C9_missing_metadata_witness :
    requireAuth (some ⟨some 1, some "admin", none, some 50⟩) 100 =
      (.sessionInvalid, none) :=
  C9_missing_metadata ⟨some 1, some "admin", none, some 50⟩ 100
    (by decide) (by decide)

/-- C10: when validation succeeds, the only session field that changes
is `lastActivity` (set to `now`); `userId`, `username` and `createdAt`
are unchanged, so success never extends the absolute-age deadline. -/
theorem C10_frame (s s' : SessionData) (now : Int)
    (h : requireAuth (some s) now = (.allowed, some s')) :
    s'.userId = s.userId ∧ s'.username = s.username ∧
    s'.createdAt = s.createdAt ∧ s'.lastActivity = some now := by
  simp only [requireAuth] at h
  by_cases h1 : truthyNum s.userId = false
  · rw [if_pos h1] at h; simp at h
  · rw [if_neg h1] at h
    by_cases h2 : (truthyNum s.createdAt && truthyNum s.lastActivity) = false
    · rw [if_pos h2] at h; simp at h
    · rw [if_neg h2] at h
      by_cases h3 : SESSION_MAX_AGE_MS < now - s.createdAt.getD 0
      · rw [if_pos h3] at h; simp at h
      · rw [if_neg h3] at h
        by_cases h4 : SESSION_IDLE_TIMEOUT_MS < now - s.lastActivity.getD 0
        · rw [if_pos h4] at h; simp at h
        · rw [if_neg h4] at h
          have hs : { s with lastActivity := some now } = s' := by
            simpa using h
          rw [← hs]
          exact ⟨rfl, rfl, rfl, rfl⟩

/-- C10 witness: a concrete successful validation refreshes only
`lastActivity`. -/
theorem C10_frame_witness :
    (⟨some 1, some "admin", some 100, some 200⟩ : SessionData).userId =
      (⟨some 1, some "admin", some 100, some 150⟩ : SessionData).userId ∧
    (⟨some 1, some "admin", some 100, some 200⟩ : SessionData).username =
      (⟨some 1, some "admin", some 100, some 150⟩ : SessionData).username ∧
    (⟨some 1, some "admin", some 100, some 200⟩ : SessionData).createdAt =
      (⟨some 1, some "admin", some 100, some 150⟩ : SessionData).createdAt ∧
    (⟨some 1, some "admin", some 100, some 200⟩ : SessionData).lastActivity =
      some 200 :=
  C10_frame ⟨some 1, some "admin", some 100, some 150⟩
    ⟨some 1, some "admin", some 100, some 200⟩ 200 (by decide)

/-- C4 (code bug): in the one regime where the TEXT comparison lets
the lock engage — the 15-minute window straddling UTC midnight — the
row the code's `ORDER BY attempted_at ASC LIMIT 1` selects is not the
oldest chronologically in-window failure.  Failing input: failures for
"admin" at `2025-06-14 23:55:00` and `2025-06-15 00:01:00 ..
00:05:00`, checked at `2025-06-15T00:06:00Z` (window start
`2025-06-14T23:51:00.000Z`).  The ledger holds six failure rows; the
`23:55:00` row lies inside the 15-minute window (23:55 > 23:51) yet is
excluded from the matched set by the string comparison, so the count
is 5 and `lockoutEndsAt` is computed from the `00:01:00` row — not
from the oldest in-window failure as the claim states (and the instant
is further obtained by Node parsing the space-separated text as local
time, modelled by the abstract `parseTs`). -/
theorem C4_lockout_ends_at_bug :
    getRecentFailedAttemptsText
      [⟨"admin", "ip", false, "2025-06-14 23:55:00"⟩,
       ⟨"admin", "ip", false, "2025-06-15 00:01:00"⟩,
       ⟨"admin", "ip", false, "2025-06-15 00:02:00"⟩,
       ⟨"admin", "ip", false, "2025-06-15 00:03:00"⟩,
       ⟨"admin", "ip", false, "2025-06-15 00:04:00"⟩,
       ⟨"admin", "ip", false, "2025-06-15 00:05:00"⟩]
      "admin" "2025-06-14T23:51:00.000Z" = 5 ∧
    (([⟨"admin", "ip", false, "2025-06-14 23:55:00"⟩,
       ⟨"admin", "ip", false, "2025-06-15 00:01:00"⟩,
       ⟨"admin", "ip", false, "2025-06-15 00:02:00"⟩,
       ⟨"admin", "ip", false, "2025-06-15 00:03:00"⟩,
       ⟨"admin", "ip", false, "2025-06-15 00:04:00"⟩,
       ⟨"admin", "ip", false, "2025-06-15 00:05:00"⟩] :
        List AttemptRow).filter
      (fun r => r.username == "admin" && r.success == false)).length = 6 ∧
    "2025-06-14 23:55:00" ∉
      (([⟨"admin", "ip", false, "2025-06-14 23:55:00"⟩,
         ⟨"admin", "ip", false, "2025-06-15 00:01:00"⟩,
         ⟨"admin", "ip", false, "2025-06-15 00:02:00"⟩,
         ⟨"admin", "ip", false, "2025-06-15 00:03:00"⟩,
         ⟨"admin", "ip", false, "2025-06-15 00:04:00"⟩,
         ⟨"admin", "ip", false, "2025-06-15 00:05:00"⟩] :
          List AttemptRow).filter
        (fun r => r.username == "admin" && r.success == false &&
          textLt "2025-06-14T23:51:00.000Z" r.attemptedAt)).map
        (·.attemptedAt) ∧
    ∀ parseTs : String → Int,
      isAccountLockedText parseTs
        [⟨"admin", "ip", false, "2025-06-14 23:55:00"⟩,
         ⟨"admin", "ip", false, "2025-06-15 00:01:00"⟩,
         ⟨"admin", "ip", false, "2025-06-15 00:02:00"⟩,
         ⟨"admin", "ip", false, "2025-06-15 00:03:00"⟩,
         ⟨"admin", "ip", false, "2025-06-15 00:04:00"⟩,
         ⟨"admin", "ip", false, "2025-06-15 00:05:00"⟩]
        "admin" "2025-06-14T23:51:00.000Z" =
        ⟨true, 0, some (parseTs "2025-06-15 00:01:00" +
          LOCKOUT_DURATION_MS)⟩ :=
  ⟨by decide, by decide, by decide, fun parseTs => rfl⟩

/-- C5: a login call that succeeds (HTTP 200) leaves no failure record
for the submitted username in the ledger, so a subsequent `checkLock`
at any time reports `locked = false` with the full
`MAX_FAILED_ATTEMPTS` remaining. -/
theorem C5_success_clears (compare : String → String → Bool)
    (users : List AdminUser) (ledger : List LoginAttempt)
    (username password : Option String) (ip : String) (now now2 : Int)
    (h : (loginRoute compare users ledger username password ip now).1.status
      = 200) :
    ((loginRoute compare users ledger username password ip now).2.filter
      (fun r => r.username == username.getD "" && r.success == false) = [])
    ∧ isAccountLocked
        (loginRoute compare users ledger username password ip now).2
        (username.getD "") now2 =
      ⟨false, MAX_FAILED_ATTEMPTS, none⟩ := by
  simp only [loginRoute] at h ⊢
  by_cases h1 : truthyStr username = false ∨ truthyStr password = false
  · rw [if_pos h1] at h; simp at h
  · rw [if_neg h1] at h ⊢
    by_cases h2 : (isAccountLocked ledger (username.getD "") now).locked = true
    · rw [if_pos h2] at h; simp at h
    · rw [if_neg h2] at h ⊢
      by_cases h3 : (verifyCredentialsConstantTime compare users
          (username.getD "") (password.getD "")).1 = true
      · rw [if_pos h3] at h ⊢
        constructor
        · apply List.filter_eq_nil_iff.mpr
          intro r hr
          have hrow := no_failure_rows_after_success ledger
            (username.getD "") ip now r hr
          intro hru
          rw [hru] at hrow
          simp at hrow
        · simp only [isAccountLocked, recent_failures_after_success]
          rw [if_neg (by decide)]
          rfl
      · rw [if_neg h3] at h
        by_cases h4 : (isAccountLocked
            (recordLoginAttempt ledger (username.getD "") ip false now)
            (username.getD "") now).locked = true
        · rw [if_pos h4] at h; simp at h
        · rw [if_neg h4] at h; simp at h

/-- C5 witness: a concrete successful login on a ledger holding prior
failures for "admin" clears them; `checkLock` then reports the full
five remaining attempts. -/
theorem C5_success_clears_witness :
    ((loginRoute (fun p h => p == "pw" && h == "hash1")
        [⟨1, "admin", "hash1", "Admin"⟩]
        [⟨"admin", "ip", false, 100⟩, ⟨"admin", "ip", false, 200⟩]
        (some "admin") (some "pw") "ip" 300).2.filter
      (fun r => r.username == (some "admin").getD "" && r.success == false)
        = [])
    ∧ isAccountLocked
        (loginRoute (fun p h => p == "pw" && h == "hash1")
          [⟨1, "admin", "hash1", "Admin"⟩]
          [⟨"admin", "ip", false, 100⟩, ⟨"admin", "ip", false, 200⟩]
          (some "admin") (some "pw") "ip" 300).2
        ((some "admin").getD "") 400 =
      ⟨false, MAX_FAILED_ATTEMPTS, none⟩ :=
  C5_success_clears (fun p h => p == "pw" && h == "hash1")
    [⟨1, "admin", "hash1", "Admin"⟩]
    [⟨"admin", "ip", false, 100⟩, ⟨"admin", "ip", false, 200⟩]
    (some "admin") (some "pw") "ip" 300 400 (by decide)

/-- C6 counterexample: a login call for an account that is already
locked (five fresh failures) returns 429 and leaves the ledger exactly
as it was — the ledger does not grow by one row on every login call. -/
theorem C6_counterexample :
    loginRoute (fun _ _ => false) []
      [⟨"admin", "ip", false, 100⟩, ⟨"admin", "ip", false, 200⟩,
       ⟨"admin", "ip", false, 300⟩, ⟨"admin", "ip", false, 400⟩,
       ⟨"admin", "ip", false, 500⟩]
      (some "admin") (some "pw") "ip" 600 =
    (⟨429, false⟩,
     [⟨"admin", "ip", false, 100⟩, ⟨"admin", "ip", false, 200⟩,
      ⟨"admin", "ip", false, 300⟩, ⟨"admin", "ip", false, 400⟩,
      ⟨"admin", "ip", false, 500⟩]) := by
  decide

/-- C6 (amended): every login call that passes input validation and the
lockout pre-check appends exactly one record with the submitted
username, whether or not the username exists (a successful login first
deletes the username's failure rows); calls rejected for missing input
or an active lockout append nothing. -/
theorem C6_one_record_per_login (compare : String → String → Bool)
    (users : List AdminUser) (ledger : List LoginAttempt)
    (username password : Option String) (ip : String) (now : Int) :
    (truthyStr username = true → truthyStr password = true →
      (isAccountLocked ledger (username.getD "") now).locked = false →
      ∃ r : LoginAttempt, r.username = username.getD "" ∧
        r.attemptedAt = now ∧
        ((loginRoute compare users ledger username password ip now).2 =
            ledger ++ [r] ∨
          (loginRoute compare users ledger username password ip now).2 =
            clearFailedAttempts ledger (username.getD "") ++ [r]))
    ∧ ((truthyStr username = false ∨ truthyStr password = false ∨
        (isAccountLocked ledger (username.getD "") now).locked = true) →
      (loginRoute compare users ledger username password ip now).2 =
        ledger) := by
  constructor
  · intro hu hp hnl
    simp only [loginRoute]
    rw [if_neg (by rw [hu, hp]; simp)]
    rw [if_neg (by rw [hnl]; simp)]
    by_cases h3 : (verifyCredentialsConstantTime compare users
        (username.getD "") (password.getD "")).1 = true
    · rw [if_pos h3]
      exact ⟨⟨username.getD "", ip, true, now⟩, rfl, rfl, Or.inr rfl⟩
    · rw [if_neg h3]
      refine ⟨⟨username.getD "", ip, false, now⟩, rfl, rfl, Or.inl ?_⟩
      by_cases h4 : (isAccountLocked
          (recordLoginAttempt ledger (username.getD "") ip false now)
          (username.getD "") now).locked = true
      · rw [if_pos h4]; rfl
      · rw [if_neg h4]; rfl
  · intro hrej
    simp only [loginRoute]
    rcases hrej with hx | hx | hx
    · rw [if_pos (Or.inl hx)]
    · rw [if_pos (Or.inr hx)]
    · by_cases h1 : truthyStr username = false ∨ truthyStr password = false
      · rw [if_pos h1]
      · rw [if_neg h1, if_pos hx]

/-- C6 witness: a failed login for an unknown, unlocked username appends
exactly one record (here to an empty ledger); a call with the password
field missing appends none. -/
theorem C6_one_record_per_login_witness :
    (∃ r : LoginAttempt, r.username = (some "ghost").getD "" ∧
      r.attemptedAt = (7 : Int) ∧
      ((loginRoute (fun _ _ => false) [] [] (some "ghost") (some "pw")
          "ip" 7).2 = [] ++ [r] ∨
        (loginRoute (fun _ _ => false) [] [] (some "ghost") (some "pw")
          "ip" 7).2 = clearFailedAttempts [] ((some "ghost").getD "") ++ [r]))
    ∧ (loginRoute (fun _ _ => false) [] [⟨"admin", "ip", false, 1⟩]
        (some "admin") none "ip" 7).2 = [⟨"admin", "ip", false, 1⟩] :=
  ⟨(C6_one_record_per_login (fun _ _ => false) [] [] (some "ghost")
      (some "pw") "ip" 7).1 (by decide) (by decide) (by decide),
   (C6_one_record_per_login (fun _ _ => false) [] [⟨"admin", "ip", false, 1⟩]
      (some "admin") none "ip" 7).2 (by decide)⟩

theorem migrateBody_legacy (t : SqlTable) (idxs : List String)
    (hsid : "sid" ∈ t.cols) (hsess : "sess" ∈ t.cols)
    (hexp : "expired" ∈ t.cols)
    (hidx : "idx_sessions_expire" ∉ idxs) :
    migrateBody ⟨some t, none, idxs⟩ =
      .ok ⟨some ⟨["sid", "sess", "expire"], t.rows.map (fun r =>
            [("sid", rowGet r "sid"), ("sess", rowGet r "sess"),
             ("expire", rowGet r "expired")])⟩,
          none,
          "idx_sessions_expire" ::
            idxs.filter (fun i => i != "idx_sessions_expired")⟩ := by
  simp only [migrateBody, Bind.bind, Except.bind, stepCreateSessionsNew,
    stepCopyRows]
  rw [if_pos ⟨hsid, hsess, hexp⟩]
  simp only [stepDropIndexExpired, stepDropSessions, stepRename,
    stepCreateIndexExpire]
  rw [if_neg (fun hmem => hidx (List.mem_of_mem_filter hmem))]
  rw [if_pos (by simp)]
  simp

/-- C7: starting from a legacy-schema session store (columns `sid`,
`sess`, `expired`), the startup block succeeds and produces a store
where every original row's `sid`, payload and expiry value are present
under the new schema (column `expire`), the temporary table is gone,
the old index `idx_sessions_expired` no longer exists and
`idx_sessions_expire` exists; and whenever the migration transaction
fails, startup is aborted with the store unchanged (rollback). -/
theorem C7_migration (st : DbState) (t : SqlTable)
    (hs : st.sessions = some t)
    (hsid : "sid" ∈ t.cols) (hsess : "sess" ∈ t.cols)
    (hexp : "expired" ∈ t.cols) (hnexp : "expire" ∉ t.cols)
    (hnew : st.sessionsNew = none)
    (hidx : "idx_sessions_expire" ∉ st.indexes) :
    ((sessionsSetup st).2 = none ∧
      (sessionsSetup st).1.sessions = some ⟨["sid", "sess", "expire"],
        t.rows.map (fun r =>
          [("sid", rowGet r "sid"), ("sess", rowGet r "sess"),
           ("expire", rowGet r "expired")])⟩ ∧
      (sessionsSetup st).1.sessionsNew = none ∧
      "idx_sessions_expired" ∉ (sessionsSetup st).1.indexes ∧
      "idx_sessions_expire" ∈ (sessionsSetup st).1.indexes)
    ∧ (∀ (st2 : DbState) (t2 : SqlTable) (e : String),
        st2.sessions = some t2 → "expired" ∈ t2.cols →
        "expire" ∉ t2.cols → migrateBody st2 = .error e →
        sessionsSetup st2 = (st2, some e)) := by
  constructor
  · obtain ⟨sess, snew, idxs⟩ := st
    simp only at hs hnew hidx
    subst hs
    subst hnew
    simp only [sessionsSetup]
    rw [if_pos ⟨hexp, hnexp⟩]
    rw [migrateBody_legacy t idxs hsid hsess hexp hidx]
    simp only [ensureIndexExpire]
    rw [if_pos (List.mem_cons_self _ _)]
    refine ⟨rfl, rfl, rfl, ?_, List.mem_cons_self _ _⟩
    intro hmem
    rcases List.mem_cons.mp hmem with hh | hh
    · exact absurd hh (by decide)
    · have := List.of_mem_filter hh
      simp at this
  · intro st2 t2 e hs2 hexp2 hnexp2 herr
    simp only [sessionsSetup, hs2]
    rw [if_pos ⟨hexp2, hnexp2⟩, herr]

/-- C7 witness: a concrete legacy store with one row migrates with the
row preserved, and a concrete broken legacy store (a leftover
`sessions_new` table) aborts startup with the store unchanged. -/
theorem C7_migration_witness :
    ((sessionsSetup ⟨some ⟨["sid", "sess", "expired"],
        [[("sid", "s1"), ("sess", "p1"), ("expired", "e1")]]⟩, none,
        ["idx_sessions_expired"]⟩).2 = none ∧
      (sessionsSetup ⟨some ⟨["sid", "sess", "expired"],
        [[("sid", "s1"), ("sess", "p1"), ("expired", "e1")]]⟩, none,
        ["idx_sessions_expired"]⟩).1.sessions =
        some ⟨["sid", "sess", "expire"],
          ([[("sid", "s1"), ("sess", "p1"), ("expired", "e1")]] :
            List SessRow).map (fun r =>
            [("sid", rowGet r "sid"), ("sess", rowGet r "sess"),
             ("expire", rowGet r "expired")])⟩ ∧
      (sessionsSetup ⟨some ⟨["sid", "sess", "expired"],
        [[("sid", "s1"), ("sess", "p1"), ("expired", "e1")]]⟩, none,
        ["idx_sessions_expired"]⟩).1.sessionsNew = none ∧
      "idx_sessions_expired" ∉ (sessionsSetup ⟨some ⟨["sid", "sess",
        "expired"], [[("sid", "s1"), ("sess", "p1"), ("expired", "e1")]]⟩,
        none, ["idx_sessions_expired"]⟩).1.indexes ∧
      "idx_sessions_expire" ∈ (sessionsSetup ⟨some ⟨["sid", "sess",
        "expired"], [[("sid", "s1"), ("sess", "p1"), ("expired", "e1")]]⟩,
        none, ["idx_sessions_expired"]⟩).1.indexes)
    ∧ sessionsSetup ⟨some ⟨["sid", "sess", "expired"], []⟩,
        some ⟨["sid", "sess", "expire"], []⟩, []⟩ =
      (⟨some ⟨["sid", "sess", "expired"], []⟩,
        some ⟨["sid", "sess", "expire"], []⟩, []⟩,
       some "table sessions_new already exists") :=
  ⟨(C7_migration ⟨some ⟨["sid", "sess", "expired"],
      [[("sid", "s1"), ("sess", "p1"), ("expired", "e1")]]⟩, none,
      ["idx_sessions_expired"]⟩ ⟨["sid", "sess", "expired"],
      [[("sid", "s1"), ("sess", "p1"), ("expired", "e1")]]⟩ rfl
      (by decide) (by decide) (by decide) (by decide) rfl (by decide)).1,
   (C7_migration ⟨some ⟨["sid", "sess", "expired"],
      [[("sid", "s1"), ("sess", "p1"), ("expired", "e1")]]⟩, none,
      ["idx_sessions_expired"]⟩ ⟨["sid", "sess", "expired"],
      [[("sid", "s1"), ("sess", "p1"), ("expired", "e1")]]⟩ rfl
      (by decide) (by decide) (by decide) (by decide) rfl (by decide)).2
     ⟨some ⟨["sid", "sess", "expired"], []⟩,
      some ⟨["sid", "sess", "expire"], []⟩, []⟩
     ⟨["sid", "sess", "expired"], []⟩ "table sessions_new already exists"
     rfl (by decide) (by decide) rfl⟩

/-- C8 counterexample: a `sessions` table that has an `expire` column
but is missing both the session-id and payload columns passes startup
with no error at all (the only startup checks are the `expired` column
probe and the index creation on `expire`), contradicting the claim that
any missing required field fails fast. -/
theorem C8_counterexample :
    sessionsSetup ⟨some ⟨["expire"], []⟩, none, []⟩ =
      (⟨some ⟨["expire"], []⟩, none, ["idx_sessions_expire"]⟩, none) := by
  decide

/-- C8 (amended): startup fails fast only when the expiry field itself
is unusable — a table with neither `expire` nor `expired` (and no
pre-existing expiry index) aborts startup with an error and the store
untouched; a table that has an `expire` column is accepted unchanged
regardless of the other fields; the schema is never guessed or
auto-repaired. -/
theorem C8_malformed_schema (st : DbState) (t : SqlTable)
    (hs : st.sessions = some t) :
    (("expire" ∉ t.cols → "expired" ∉ t.cols →
      "idx_sessions_expire" ∉ st.indexes →
      ((sessionsSetup st).2).isSome = true ∧ (sessionsSetup st).1 = st))
    ∧ ("expire" ∈ t.cols → (sessionsSetup st).1.sessions = some t) := by
  constructor
  · intro hne hned hidx
    simp only [sessionsSetup, hs]
    rw [if_neg (fun hc => hned hc.1)]
    simp only [ensureIndexExpire]
    rw [if_neg hidx, hs]
    simp [hne]
  · intro hexp
    simp only [sessionsSetup, hs]
    rw [if_neg (fun hc => hc.2 hexp)]
    simp only [ensureIndexExpire]
    by_cases hidx : "idx_sessions_expire" ∈ st.indexes
    · rw [if_pos hidx]
      exact hs
    · rw [if_neg hidx, hs]
      simp [hexp]

/-- C8 witness: a table with only a `sess` column (no expiry field)
aborts startup untouched; a table with only an `expire` column (missing
`sid` and `sess`) is accepted unchanged. -/
theorem C8_malformed_schema_witness :
    (((sessionsSetup ⟨some ⟨["sess"], []⟩, none, []⟩).2).isSome = true ∧
      (sessionsSetup ⟨some ⟨["sess"], []⟩, none, []⟩).1 =
        ⟨some ⟨["sess"], []⟩, none, []⟩)
    ∧ (sessionsSetup ⟨some ⟨["expire"], []⟩, none,
        ["idx_sessions_expire"]⟩).1.sessions = some ⟨["expire"], []⟩ :=
  ⟨(C8_malformed_schema ⟨some ⟨["sess"], []⟩, none, []⟩ ⟨["sess"], []⟩
      rfl).1 (by decide) (by decide) (by decide),
   (C8_malformed_schema ⟨some ⟨["expire"], []⟩, none,
      ["idx_sessions_expire"]⟩ ⟨["expire"], []⟩ rfl).2 (by decide)⟩

end RateMyServices
